import Mathlib

/-!
Verification of the command dispatch and deployment-target resolution
subsystem of the maestro CLI (`src/cli/commands.py`).

The Python code is shallowly embedded: argument values are modelled by the
inductive `PyVal` (with Python's `==` as `pyEq`, truthiness as `truthy`,
and `isinstance(_, int)` as `pyIsInt`); the parsed-arguments dictionary is
a total map `Args` (the real parser populates every key, absent keys are
modelled as `PyVal.none`); parsed YAML documents are the inductive `Yaml`;
Python exceptions are `PyErr`; fallible code returns `Except PyErr _`.
External collaborators (the YAML parser, the jsonschema validator, the
workflow engine, the deploy backends, the process table) are parameters of
the embedded functions, exactly at their call interface.
-/

/-- Value of one entry of the parsed-arguments dictionary: Python
`None`, `bool`, `int`, `str`, or a list of strings. -/
inductive PyVal where
  | none
  | bool (b : Bool)
  | int (n : Int)
  | str (s : String)
  | list (xs : List String)
deriving DecidableEq, Repr

/-- Python `==` on `PyVal`: structural within one type, with the numeric
cross-type equalities `False == 0` and `True == 1`; every other cross-type
comparison (including anything against `None`) is unequal. -/
def pyEq : PyVal → PyVal → Bool
  | .none, .none => true
  | .bool a, .bool b => a == b
  | .bool a, .int n => (if a then (1 : Int) else 0) == n
  | .int n, .bool a => n == (if a then (1 : Int) else 0)
  | .int m, .int n => m == n
  | .str s, .str t => s == t
  | .list xs, .list ys => xs == ys
  | _, _ => false

/-- Python truthiness of a `PyVal`: `None` and `False` are falsy, numbers
are truthy iff nonzero, strings and lists are truthy iff nonempty. -/
def truthy : PyVal → Bool
  | .none => false
  | .bool b => b
  | .int n => n != 0
  | .str s => s != ""
  | .list xs => !xs.isEmpty

/-- Python `isinstance(v, int)`: true for `int` and for `bool`
(`bool` is a subclass of `int`). -/
def pyIsInt : PyVal → Bool
  | .int _ => true
  | .bool _ => true
  | _ => false

/-- Coerce a `PyVal` known to be a list of strings to that list
(the deploy command's ENV positional is always parsed as a list). -/
def pyList : PyVal → List String
  | .list xs => xs
  | _ => []

/-- The parsed-arguments dictionary `self.args`: a total map from flag or
positional name to value. -/
def Args : Type := String → PyVal

/-- Python dictionary item assignment `args[k] = v` (the observable effect
of mutating a value object held in the dictionary is modelled the same
way: the map afterwards yields the new value at that key). -/
def Args.update (a : Args) (k : String) (v : PyVal) : Args :=
  fun k' => if k' = k then v else a k'

theorem Args.update_ne (a : Args) (k v : _) (k' : String) (h : k' ≠ k) :
    Args.update a k v k' = a k' := by
  simp [Args.update, h]

/-- Python exceptions that the embedded code can raise. `exception` is a
plain `Exception(msg)`; `typeError` is the interpreter-raised `TypeError`
(in particular, `raise s` for a string `s` raises
`TypeError: exceptions must derive from BaseException`). -/
inductive PyErr where
  | exception (msg : String)
  | typeError (msg : String)
  | attributeError (msg : String)
  | indexError (msg : String)
deriving DecidableEq, Repr

/-- A parsed YAML document: an untyped tree of scalars, sequences and
mappings (string-keyed, as produced for the documents this tool reads). -/
inductive Yaml where
  | null
  | bool (b : Bool)
  | num (n : Int)
  | str (s : String)
  | seq (items : List Yaml)
  | map (entries : List (String × Yaml))
deriving Repr

/-- The seven command handlers the CLI can route to. -/
inductive Handler where
  | validate
  | create
  | run
  | deploy
  | mermaid
  | metaAgents
  | clean
deriving DecidableEq, Repr

/-- CLI.command (src/cli/commands.py lines 41-57): probe the seven command
flags in order `validate`, `create`, `run`, `deploy`, `mermaid`,
`meta-agents`, `clean`; return the first handler whose flag is truthy;
raise `Exception("Invalid command")` when none is. (The source condition
`self.args.get(k) and self.args[k]` is the truthiness of `args k` under
the total-map model.) -/
def CLI.command (args : Args) : Except PyErr Handler :=
  if truthy (args "validate") then .ok .validate
  else if truthy (args "create") then .ok .create
  else if truthy (args "run") then .ok .run
  else if truthy (args "deploy") then .ok .deploy
  else if truthy (args "mermaid") then .ok .mermaid
  else if truthy (args "meta-agents") then .ok .metaAgents
  else if truthy (args "clean") then .ok .clean
  else .error (.exception "Invalid command")

/-- Command.dispatch (lines 103-119): the same boolean-flag probing inside
the selected handler, resolving to its primary action;
raises `Exception("Invalid subcommand")` when no flag is truthy. -/
def Command.dispatch (args : Args) : Except PyErr Handler :=
  if truthy (args "validate") then .ok .validate
  else if truthy (args "create") then .ok .create
  else if truthy (args "run") then .ok .run
  else if truthy (args "deploy") then .ok .deploy
  else if truthy (args "mermaid") then .ok .mermaid
  else if truthy (args "meta-agents") then .ok .metaAgents
  else if truthy (args "clean") then .ok .clean
  else .error (.exception "Invalid subcommand")

/-- The seven command-flag names probed by CLI.command, in probe order. -/
def cmdFlags : List String :=
  ["validate", "create", "run", "deploy", "mermaid", "meta-agents", "clean"]

/-- Command.execute (lines 92-101), applied to the handler return value
`rc = func()`: `if rc == None: return 0; if isinstance(rc, int): return rc;
else return 1`. -/
def Command.execute (rc : PyVal) : PyVal :=
  if pyEq rc .none then .int 0
  else if pyIsInt rc then rc
  else .int 1

namespace ValidateCmd

/-- Schema path bound to kind Agent; the directory prefix computed from
the installed file location at runtime is rendered as the marker. -/
def AGENT_SCHEMA_FILE : String := "<cli>/../schemas/agent_schema.json"

/-- Schema path bound to kind Tool. -/
def TOOL_SCHEMA_FILE : String := "<cli>/../schemas/tool_schema.json"

/-- Schema path bound to kind Workflow. -/
def WORKFLOW_SCHEMA_FILE : String := "<cli>/../schemas/workflow_schema.json"

/-- Python `d.get('kind') == 'S'` test on the optional looked-up value. -/
def kindIs (k : Option Yaml) (s : String) : Bool :=
  match k with
  | some (.str t) => t == s
  | _ => false

/-- Body of ValidateCmd.__discover_schema_file after the
take-first-of-a-sequence step: `kind = yaml_data.get('kind')` (an
`AttributeError` on a non-mapping), the three kind branches, and the
`raise f"Unknown kind: {kind}"` fall-through — which, because it raises a
`str` and not an exception object, actually raises
`TypeError("exceptions must derive from BaseException")`, an error that
does not mention the offending kind. -/
def discoverKind (yaml_data : Yaml) : Except PyErr String :=
  match yaml_data with
  | .map kvs =>
    let kind := kvs.lookup "kind"
    if kindIs kind "Agent" then .ok AGENT_SCHEMA_FILE
    else if kindIs kind "Tool" then .ok TOOL_SCHEMA_FILE
    else if kindIs kind "Workflow" then .ok WORKFLOW_SCHEMA_FILE
    else .error (.typeError "exceptions must derive from BaseException")
  | _ => .error (.attributeError "object has no attribute get")

/-- ValidateCmd.__discover_schema_file (lines 133-150) applied to the
parsed document: `if type(yaml_data) == list: yaml_data = yaml_data[0]`
(an `IndexError` on an empty sequence), then kind discovery. -/
def discover_schema_file (yaml_data : Yaml) : Except PyErr String :=
  match yaml_data with
  | .seq [] => .error (.indexError "list index out of range")
  | .seq (x :: _) => discoverKind x
  | y => discoverKind y

/-- Outcome of `jsonschema.validate(yaml_data, schema)` on one document:
success, a `ValidationError`, or a `SchemaError` (the external validator
is a parameter of the loop). -/
inductive VResult where
  | ok
  | invalid (msg : String)
  | schemaErr (msg : String)
deriving DecidableEq, Repr

/-- Success confirmation printed per valid document
(`Console.ok("YAML file is valid.")`). -/
def okMsg : String := "YAML file is valid."

/-- Error message printed for a document failing structural validation. -/
def notValidMsg (m : String) : String := "YAML file is NOT valid:\n " ++ m

/-- Error message printed for a malformed schema file. -/
def schemaNotValidMsg (m : String) : String := "Schema file is NOT valid:\n " ++ m

/-- Result of the validation loop: how many documents were inspected, the
messages printed by the loop, and the returned exit code. -/
structure VOut where
  inspected : Nat
  msgs : List String
  rc : Int
deriving DecidableEq, Repr

/-- The per-document loop of ValidateCmd.__validate (lines 156-172):
validate each parsed document in order; on success print the confirmation
unless silent and continue; on the first `ValidationError` or
`SchemaError` print the corresponding error and return 1; return 0 after
the last document. -/
def validateLoop {α : Type} (check : α → VResult) (silent : Bool) :
    List α → VOut
  | [] => ⟨0, [], 0⟩
  | d :: ds =>
    match check d with
    | .ok =>
      let r := validateLoop check silent ds
      ⟨r.inspected + 1, (if silent then [] else [okMsg]) ++ r.msgs, r.rc⟩
    | .invalid m => ⟨1, [notValidMsg m], 1⟩
    | .schemaErr m => ⟨1, [schemaNotValidMsg m], 1⟩

end ValidateCmd

namespace CreateCmd

/-- CreateCmd.create (lines 216-223): `parse_yaml(self.AGENTS_FILE())` is
evaluated OUTSIDE the try block, so a parse failure propagates out of
`create()`; only the agent-creation collaborator's exceptions are caught
(reported, and swallowed), after which `create()` returns 0. `parsed` is
the outcome of the parse, `create_agents` the external collaborator. -/
def create (parsed : Except PyErr Yaml)
    (create_agents : Yaml → Except PyErr Unit) : Except PyErr Int :=
  match parsed with
  | .error e => .error e
  | .ok agents_yaml =>
    match create_agents agents_yaml with
    | .ok _ => .ok 0
    | .error _ => .ok 0

end CreateCmd

namespace RunCmd

/-- RunCmd.run (lines 260-276). `agentsFile` is the AGENTS_FILE argument
value; the agents file is parsed only when that value is neither `None`
nor the literal string `'None'`. `parse_agents` models
`parse_yaml(AGENTS_FILE)` (outside any try: its failure propagates),
`parse_workflow` the result of `parse_yaml(WORKFLOW_FILE)`,
`injectPrompt` the `--prompt` branch (read a line from the operator and
assign `workflow_yaml[0]['spec']['template']['prompt']`), and `engine`
the `Workflow(agents_yaml, workflow_yaml[0])` construction plus awaited
`run()`, whose failure is caught and turned into exit code 1. The result
pairs the exit code with the `agents_yaml` value handed to the engine,
making that observable explicit. -/
def run (agentsFile promptFlag : PyVal)
    (parse_agents : PyVal → Except PyErr Yaml)
    (parse_workflow : Except PyErr (List Yaml))
    (injectPrompt : List Yaml → Except PyErr (List Yaml))
    (engine : Option Yaml → List Yaml → Except PyErr Unit) :
    Except PyErr (Int × Option Yaml) := do
  let agents_yaml ←
    if !(pyEq agentsFile .none) && !(pyEq agentsFile (.str "None")) then do
      let y ← parse_agents agentsFile
      pure (some y)
    else
      pure Option.none
  let workflow_yaml ← parse_workflow
  let workflow_yaml ←
    if truthy promptFlag then injectPrompt workflow_yaml else pure workflow_yaml
  match engine agents_yaml workflow_yaml with
  | .ok _ => pure (0, agents_yaml)
  | .error _ => pure (1, agents_yaml)

end RunCmd

namespace DeployCmd

/-- DeployCmd.docker (lines 328-329): the `--docker` flag value. -/
def docker (args : Args) : PyVal := args "--docker"

/-- DeployCmd.k8s (lines 323-326): `if self.args['--k8s'] != "": return
self.args['--k8s']; return self.args['--kubernetes']` — the
`--kubernetes` alias is consulted only when `--k8s` equals the empty
string. -/
def k8s (args : Args) : PyVal :=
  if !(pyEq (args "--k8s") (.str "")) then args "--k8s"
  else args "--kubernetes"

/-- DeployCmd.streamlit (lines 331-332): the `--streamlit` flag value. -/
def streamlit (args : Args) : PyVal := args "--streamlit"

/-- DeployCmd.auto_prompt (lines 315-316):
`self.args.get('--auto-prompt', False)`; under the total-map model an
absent key is `PyVal.none`, falsy like the `False` default. -/
def auto_prompt (args : Args) : PyVal := args "--auto-prompt"

/-- The three deployment backends the deploy command can invoke. -/
inductive DeployTarget where
  | container
  | cluster
  | streamlitUI
deriving DecidableEq, Repr

/-- Backend selection inside DeployCmd.__deploy_agents_workflow
(lines 294-313): `if self.docker(): ... elif self.k8s(): ... else:`
streamlit fallback. -/
def deployBackend (args : Args) : DeployTarget :=
  if truthy (docker args) then .container
  else if truthy (k8s args) then .cluster
  else .streamlitUI

/-- DeployCmd.ENV (lines 340-344): read the ENV list out of `self.args`;
if auto-prompt is set, `env_vars.append("AUTO_RUN=true")` — which mutates
the very list object held in the arguments dictionary, modelled by
returning the post-call `Args` alongside the `" ".join(env_vars)`
result. -/
def ENV (args : Args) : String × Args :=
  let env_vars := pyList (args "ENV")
  if truthy (auto_prompt args) then
    let env_vars := env_vars ++ ["AUTO_RUN=true"]
    (" ".intercalate env_vars, Args.update args "ENV" (.list env_vars))
  else
    (" ".intercalate env_vars, args)

end DeployCmd

namespace CleanCmd

/-- Substring test on lists of characters: does the second list contain
the first as a contiguous run. -/
def listContainsSub (needle : List Char) : List Char → Bool
  | [] => needle.isEmpty
  | c :: cs => needle.isPrefixOf (c :: cs) || listContainsSub needle cs

/-- Python `needle in hay` on strings: substring containment. -/
def strContains (hay needle : String) : Bool :=
  listContainsSub needle.toList hay.toList

/-- The termination test of CleanCmd.__clean (line 459):
`len(cmd) > 3 and "streamlit" in cmd[1]` (short-circuit: `cmd[1]` is only
read when the length guard holds). -/
def shouldTerminate (cmd : List String) : Bool :=
  if 3 < cmd.length then strContains (cmd.getD 1 "") "streamlit"
  else false

/-- The three psutil exceptions swallowed per process by the inner
`except` of CleanCmd.__clean (line 461). -/
inductive ProcErr where
  | noSuchProcess
  | accessDenied
  | zombieProcess
deriving DecidableEq, Repr

/-- One entry of the live-process scan: its pid, and either its command
line or the psutil error raised while inspecting it. -/
structure ProcEntry where
  pid : Nat
  cmdline : Except ProcErr (List String)

/-- CleanCmd.__clean (lines 453-465): iterate over the process table; for
each entry read the command line, send SIGTERM when the termination test
holds, and swallow the three per-process psutil errors, continuing the
sweep. Returns the pids signalled, in scan order. -/
def clean : List ProcEntry → List Nat
  | [] => []
  | p :: ps =>
    match p.cmdline with
    | .ok cmd =>
      if shouldTerminate cmd then p.pid :: clean ps else clean ps
    | .error _ => clean ps

end CleanCmd

/-! ## Concrete argument maps used by counterexamples and witnesses -/

/-- Argument map with only the `--kubernetes` cluster alias set (all other
flags boolean false, as a flag parser yields for unset flags). -/
def argsKubOnly : Args := fun k => if k = "--kubernetes" then .bool true else .bool false

/-- Argument map with ENV = ["A=1", "B=2"] and auto-prompt set. -/
def argsEnvAuto : Args :=
  fun k => if k = "ENV" then .list ["A=1", "B=2"]
           else if k = "--auto-prompt" then .bool true
           else .none

/-- Helper: a value that Python-equals the empty string is falsy. -/
theorem truthy_of_pyEq_empty (v : PyVal) (h : pyEq v (.str "") = true) :
    truthy v = false := by
  cases v <;> simp_all [pyEq, truthy]

/-! ## Claims -/

/-- Claim C1, counterexample: with `--docker` and `--k8s` boolean false and
`--kubernetes` boolean true, the code selects the streamlit fallback and
not ClusterRuntime, because `DeployCmd.k8s` returns `args['--k8s']`
whenever it differs from the empty string — a false boolean differs from
`""`, so the `--kubernetes` alias is never consulted. -/
theorem deploy_backend_kubernetes_alias_cex :
    truthy (argsKubOnly "--docker") = false ∧
    truthy (argsKubOnly "--kubernetes") = true ∧
    DeployCmd.deployBackend argsKubOnly = DeployCmd.DeployTarget.streamlitUI ∧
    DeployCmd.deployBackend argsKubOnly ≠ DeployCmd.DeployTarget.cluster := by
  decide

/-- Claim C1, amended: backend selection is a pure function of the
`--docker`, `--k8s` and `--kubernetes` values with fixed precedence:
a truthy container flag always selects ContainerRuntime; otherwise
ClusterRuntime is selected iff `--k8s` is truthy, or `--k8s` equals the
empty string and `--kubernetes` is truthy (the alias is consulted only in
that case); otherwise the streamlit fallback is selected — and the
`--streamlit` flag value has no effect on the selection. -/
theorem deploy_backend_selection (args : Args) :
    DeployCmd.deployBackend args =
      (if truthy (args "--docker") then DeployCmd.DeployTarget.container
       else if truthy (args "--k8s")
              || (pyEq (args "--k8s") (.str "") && truthy (args "--kubernetes"))
         then DeployCmd.DeployTarget.cluster
       else DeployCmd.DeployTarget.streamlitUI)
    ∧ (∀ v, DeployCmd.deployBackend (Args.update args "--streamlit" v)
          = DeployCmd.deployBackend args) := by
  constructor
  · unfold DeployCmd.deployBackend DeployCmd.docker DeployCmd.k8s
    by_cases hd : truthy (args "--docker")
    · simp [hd]
    · by_cases he : pyEq (args "--k8s") (.str "")
      · simp [hd, he, truthy_of_pyEq_empty _ he]
      · simp [hd, he]
  · intro v
    have h1 : Args.update args "--streamlit" v "--docker" = args "--docker" :=
      Args.update_ne _ _ _ _ (by decide)
    have h2 : Args.update args "--streamlit" v "--k8s" = args "--k8s" :=
      Args.update_ne _ _ _ _ (by decide)
    have h3 : Args.update args "--streamlit" v "--kubernetes" = args "--kubernetes" :=
      Args.update_ne _ _ _ _ (by decide)
    simp [DeployCmd.deployBackend, DeployCmd.docker, DeployCmd.k8s, h1, h2, h3]

/-- Claim C2, counterexample: with ENV = ["A=1", "B=2"] and auto-prompt
set, the first call to `DeployCmd.ENV` yields the expected joined
sequence, but a second call on the post-call argument state yields an
extra duplicated AUTO_RUN=true entry — `env_vars.append` mutates the list
object held in `self.args`, so the construction is not idempotent. -/
theorem ENV_not_idempotent_cex :
    (DeployCmd.ENV argsEnvAuto).1 = "A=1 B=2 AUTO_RUN=true" ∧
    (DeployCmd.ENV (DeployCmd.ENV argsEnvAuto).2).1
      = "A=1 B=2 AUTO_RUN=true AUTO_RUN=true" ∧
    (DeployCmd.ENV (DeployCmd.ENV argsEnvAuto).2).1 ≠ (DeployCmd.ENV argsEnvAuto).1 := by
  decide

/-- Claim C2, amended: a single call to `DeployCmd.ENV` with auto-prompt
set preserves the order of the user-supplied ENV entries and appends
exactly one AUTO_RUN=true entry at the end, returning the space-joined
string of that sequence; the call also stores the appended list back into
the arguments (in-place list mutation), so repeating the call is NOT
idempotent: each further call appends one more AUTO_RUN=true. -/
theorem ENV_single_call (args : Args) (xs : List String)
    (hENV : args "ENV" = PyVal.list xs)
    (hap : truthy (args "--auto-prompt") = true) :
    (DeployCmd.ENV args).1 = " ".intercalate (xs ++ ["AUTO_RUN=true"]) ∧
    (DeployCmd.ENV args).2 "ENV" = PyVal.list (xs ++ ["AUTO_RUN=true"]) := by
  unfold DeployCmd.ENV DeployCmd.auto_prompt
  rw [hENV]
  simp [hap, pyList, Args.update]

/-- Witness for the amended C2 theorem at ENV = ["A=1", "B=2"]. -/
theorem ENV_single_call_witness :
    (DeployCmd.ENV argsEnvAuto).1 = " ".intercalate (["A=1", "B=2"] ++ ["AUTO_RUN=true"]) ∧
    (DeployCmd.ENV argsEnvAuto).2 "ENV" = PyVal.list (["A=1", "B=2"] ++ ["AUTO_RUN=true"]) :=
  ENV_single_call argsEnvAuto ["A=1", "B=2"] (by decide) (by decide)

/-- Claim C3, counterexample: the empty string is falsy, yet
`Command.execute` normalizes it to exit code 1, not 0 — the code only
maps `None` to 0 and passes every `int` through; non-integer values map
to 1 whether truthy or falsy. -/
theorem execute_falsy_noninteger_cex :
    truthy (PyVal.str "") = false ∧
    Command.execute (PyVal.str "") = PyVal.int 1 ∧
    Command.execute (PyVal.str "") ≠ PyVal.int 0 := by
  decide

/-- Claim C3, amended: `execute()` maps a `None` handler return to 0,
passes every integer through unchanged (zero included; booleans, being
`int` instances, also pass through), and maps every non-integer return —
truthy or falsy — to 1. -/
theorem execute_exit_code_normalization (rc : PyVal) :
    Command.execute rc =
      (match rc with
       | .none => PyVal.int 0
       | .int n => PyVal.int n
       | .bool b => PyVal.bool b
       | .str _ => PyVal.int 1
       | .list _ => PyVal.int 1) := by
  cases rc <;> rfl

/-- Claim C4, failing-input evaluation: with ENV = ["A=1", "B=2"] and
auto-prompt set, `DeployCmd.ENV` leaves the arguments mapping changed —
the ENV value afterwards holds the appended AUTO_RUN=true entry, so the
args mapping is mutated after parse, contradicting the immutability
invariant. -/
theorem ENV_mutates_args_eval :
    argsEnvAuto "ENV" = PyVal.list ["A=1", "B=2"] ∧
    (DeployCmd.ENV argsEnvAuto).2 "ENV" = PyVal.list ["A=1", "B=2", "AUTO_RUN=true"] ∧
    (DeployCmd.ENV argsEnvAuto).2 "ENV" ≠ argsEnvAuto "ENV" := by
  decide

/-- Claim C5, evaluation: kinds Agent, Tool and Workflow map to their
fixed schema paths (first element taken for a sequence document), but for
any other or absent kind the `raise f"Unknown kind: ..."` statement
raises a string, which Python rejects with
`TypeError: exceptions must derive from BaseException` — discovery fails,
yet the error does not identify the offending kind. -/
theorem discover_schema_file_eval :
    ValidateCmd.discover_schema_file (.map [("kind", .str "Agent")])
      = .ok ValidateCmd.AGENT_SCHEMA_FILE ∧
    ValidateCmd.discover_schema_file (.map [("kind", .str "Tool")])
      = .ok ValidateCmd.TOOL_SCHEMA_FILE ∧
    ValidateCmd.discover_schema_file (.map [("kind", .str "Workflow")])
      = .ok ValidateCmd.WORKFLOW_SCHEMA_FILE ∧
    ValidateCmd.discover_schema_file
        (.seq [.map [("kind", .str "Tool")], .map [("kind", .str "Agent")]])
      = .ok ValidateCmd.TOOL_SCHEMA_FILE ∧
    ValidateCmd.discover_schema_file (.map [("kind", .str "Foo")])
      = .error (.typeError "exceptions must derive from BaseException") ∧
    ValidateCmd.discover_schema_file (.map [("name", .str "x")])
      = .error (.typeError "exceptions must derive from BaseException") :=
  ⟨rfl, rfl, rfl, rfl, rfl, rfl⟩

/-- Claim C7, counterexample: `parse_yaml(self.AGENTS_FILE())` stands
outside the try block of `create()`, so when the agents file fails to
parse the exception propagates and `create()` does not return 0 — even
with a collaborator that never raises. -/
theorem create_parse_failure_cex :
    CreateCmd.create (Except.error (PyErr.exception "could not parse yaml"))
        (fun _ => Except.ok ())
      = Except.error (PyErr.exception "could not parse yaml") ∧
    CreateCmd.create (Except.error (PyErr.exception "could not parse yaml"))
        (fun _ => Except.ok ())
      ≠ Except.ok 0 :=
  ⟨rfl, fun h => Except.noConfusion h⟩

/-- Claim C7, amended: whenever the agents file parses, `create()`
returns 0 for every behaviour of the agent-creation collaborator,
including the collaborator raising (the exception is caught and only
reported); a parse failure, however, propagates out of `create()`. -/
theorem create_always_zero (agents_yaml : Yaml)
    (create_agents : Yaml → Except PyErr Unit) :
    CreateCmd.create (Except.ok agents_yaml) create_agents = Except.ok 0 := by
  cases h : create_agents agents_yaml <;> simp [CreateCmd.create, h]

/-- Helper: unfolding of the clean command's termination test. -/
theorem shouldTerminate_iff (cmd : List String) :
    CleanCmd.shouldTerminate cmd = true ↔
      3 < cmd.length ∧ CleanCmd.strContains (cmd.getD 1 "") "streamlit" = true := by
  unfold CleanCmd.shouldTerminate
  split <;> simp_all

/-- Claim C6: validation inspects a prefix of the documents in order and
halts with exit code 1 at the first invalid document — the result does
not depend on the documents after it; when every document is valid the
loop returns 0 having inspected all N documents and printed, unless
silent, exactly one confirmation per document. -/
theorem validate_prefix_halt {α : Type} (check : α → ValidateCmd.VResult) (silent : Bool) :
    (∀ docs : List α, (∀ d ∈ docs, check d = .ok) →
      ValidateCmd.validateLoop check silent docs =
        ⟨docs.length,
         if silent then [] else List.replicate docs.length ValidateCmd.okMsg, 0⟩)
    ∧ (∀ (pre post : List α) (bad : α),
        (∀ d ∈ pre, check d = .ok) → check bad ≠ .ok →
        (ValidateCmd.validateLoop check silent (pre ++ bad :: post)).rc = 1 ∧
        (ValidateCmd.validateLoop check silent (pre ++ bad :: post)).inspected
          = pre.length + 1 ∧
        ValidateCmd.validateLoop check silent (pre ++ bad :: post) =
          ValidateCmd.validateLoop check silent (pre ++ [bad])) := by
  constructor
  · intro docs h
    induction docs with
    | nil => cases silent <;> rfl
    | cons d ds ih =>
      have hd : check d = .ok := h d (by simp)
      have hds := ih (fun x hx => h x (by simp [hx]))
      simp [ValidateCmd.validateLoop, hd, hds]
      cases silent <;> simp [List.replicate_succ]
  · intro pre post bad hpre hbad
    induction pre with
    | nil =>
      cases hb : check bad with
      | ok => exact absurd hb hbad
      | invalid m => simp [ValidateCmd.validateLoop, hb]
      | schemaErr m => simp [ValidateCmd.validateLoop, hb]
    | cons d ds ih =>
      have hd : check d = .ok := hpre d (by simp)
      obtain ⟨h1, h2, h3⟩ := ih (fun x hx => hpre x (by simp [hx]))
      refine ⟨?_, ?_, ?_⟩
      · simp [ValidateCmd.validateLoop, hd, h1]
      · simp [ValidateCmd.validateLoop, hd, h2]
      · simp [ValidateCmd.validateLoop, hd, h3]

/-- Check used by the C6 witness: documents are booleans, valid iff true. -/
def checkBool : Bool → ValidateCmd.VResult :=
  fun b => if b then .ok else .invalid "missing required property"

/-- Witness for C6: two valid documents give exit 0 with two
confirmations; [valid, invalid, valid] halts at the second document. -/
theorem validate_prefix_halt_witness :
    ValidateCmd.validateLoop checkBool false [true, true] =
      ⟨2, List.replicate 2 ValidateCmd.okMsg, 0⟩ ∧
    (ValidateCmd.validateLoop checkBool false ([true] ++ false :: [true])).rc = 1 ∧
    (ValidateCmd.validateLoop checkBool false ([true] ++ false :: [true])).inspected = 2 := by
  have h := validate_prefix_halt checkBool false
  have h1 := h.1 [true, true] (by decide)
  have h2 := h.2 [true] [true] false (by decide) (by decide)
  exact ⟨by simpa using h1, h2.1, by simpa using h2.2.1⟩

/-- Claim C8: command routing is first-match-wins over the fixed order
validate, create, run, deploy, mermaid, meta-agents, clean; when no
command flag is truthy it raises the invalid-command error, and that is
the only error the routing layer (CLI.command, and likewise
Command.dispatch with its invalid-subcommand message) can produce; both
layers select the same handler. -/
theorem command_routing (args : Args) :
    (truthy (args "validate") = true → CLI.command args = .ok .validate) ∧
    (truthy (args "validate") = false → truthy (args "create") = true →
      CLI.command args = .ok .create) ∧
    (truthy (args "validate") = false → truthy (args "create") = false →
      truthy (args "run") = true → CLI.command args = .ok .run) ∧
    (truthy (args "validate") = false → truthy (args "create") = false →
      truthy (args "run") = false → truthy (args "deploy") = true →
      CLI.command args = .ok .deploy) ∧
    (truthy (args "validate") = false → truthy (args "create") = false →
      truthy (args "run") = false → truthy (args "deploy") = false →
      truthy (args "mermaid") = true → CLI.command args = .ok .mermaid) ∧
    (truthy (args "validate") = false → truthy (args "create") = false →
      truthy (args "run") = false → truthy (args "deploy") = false →
      truthy (args "mermaid") = false → truthy (args "meta-agents") = true →
      CLI.command args = .ok .metaAgents) ∧
    (truthy (args "validate") = false → truthy (args "create") = false →
      truthy (args "run") = false → truthy (args "deploy") = false →
      truthy (args "mermaid") = false → truthy (args "meta-agents") = false →
      truthy (args "clean") = true → CLI.command args = .ok .clean) ∧
    ((∀ k ∈ cmdFlags, truthy (args k) = false) →
      CLI.command args = .error (.exception "Invalid command")) ∧
    (∀ e, CLI.command args = .error e → e = .exception "Invalid command") ∧
    (∀ e, Command.dispatch args = .error e → e = .exception "Invalid subcommand") ∧
    (∀ h : Handler, CLI.command args = .ok h ↔ Command.dispatch args = .ok h) := by
  refine ⟨?_, ?_, ?_, ?_, ?_, ?_, ?_, ?_, ?_, ?_, ?_⟩
  · intro h1
    simp [CLI.command, h1]
  · intro h1 h2
    simp [CLI.command, h1, h2]
  · intro h1 h2 h3
    simp [CLI.command, h1, h2, h3]
  · intro h1 h2 h3 h4
    simp [CLI.command, h1, h2, h3, h4]
  · intro h1 h2 h3 h4 h5
    simp [CLI.command, h1, h2, h3, h4, h5]
  · intro h1 h2 h3 h4 h5 h6
    simp [CLI.command, h1, h2, h3, h4, h5, h6]
  · intro h1 h2 h3 h4 h5 h6 h7
    simp [CLI.command, h1, h2, h3, h4, h5, h6, h7]
  · intro hall
    have hv := hall "validate" (by simp [cmdFlags])
    have hc := hall "create" (by simp [cmdFlags])
    have hr := hall "run" (by simp [cmdFlags])
    have hd := hall "deploy" (by simp [cmdFlags])
    have hm := hall "mermaid" (by simp [cmdFlags])
    have hma := hall "meta-agents" (by simp [cmdFlags])
    have hcl := hall "clean" (by simp [cmdFlags])
    simp [CLI.command, hv, hc, hr, hd, hm, hma, hcl]
  · intro e he
    unfold CLI.command at he
    repeat' split at he
    all_goals cases he
    rfl
  · intro e he
    unfold Command.dispatch at he
    repeat' split at he
    all_goals cases he
    rfl
  · intro h
    unfold CLI.command Command.dispatch
    repeat' split <;> simp_all

/-- Argument map with only the create flag set. -/
def argsCreateOnly : Args := fun k => if k = "create" then .bool true else .bool false

/-- Witness for C8: with only the create flag set, routing picks the
create handler. -/
theorem command_routing_witness : CLI.command argsCreateOnly = Except.ok Handler.create :=
  (command_routing argsCreateOnly).2.1 (by decide) (by decide)

/-- Claim C9: the clean sweep signals exactly the processes whose command
line it could read, has more than three tokens, and whose second token
contains the streamlit identifier; a per-process psutil error makes the
sweep skip that entry and continue over the rest; the example command
line is matched. -/
theorem clean_cons_ok_true (p : CleanCmd.ProcEntry) (ps : List CleanCmd.ProcEntry)
    (cmd : List String) (hc : p.cmdline = Except.ok cmd)
    (ht : CleanCmd.shouldTerminate cmd = true) :
    CleanCmd.clean (p :: ps) = p.pid :: CleanCmd.clean ps := by
  simp [CleanCmd.clean, hc, ht]

theorem clean_cons_ok_false (p : CleanCmd.ProcEntry) (ps : List CleanCmd.ProcEntry)
    (cmd : List String) (hc : p.cmdline = Except.ok cmd)
    (ht : CleanCmd.shouldTerminate cmd = false) :
    CleanCmd.clean (p :: ps) = CleanCmd.clean ps := by
  simp [CleanCmd.clean, hc, ht]

theorem clean_cons_err (p : CleanCmd.ProcEntry) (ps : List CleanCmd.ProcEntry)
    (e : CleanCmd.ProcErr) (hc : p.cmdline = Except.error e) :
    CleanCmd.clean (p :: ps) = CleanCmd.clean ps := by
  simp [CleanCmd.clean, hc]

theorem clean_signals (procs : List CleanCmd.ProcEntry) :
    (∀ pid, pid ∈ CleanCmd.clean procs ↔
      ∃ p ∈ procs, p.pid = pid ∧ ∃ cmd, p.cmdline = Except.ok cmd ∧
        3 < cmd.length ∧ CleanCmd.strContains (cmd.getD 1 "") "streamlit" = true) ∧
    (∀ (q : CleanCmd.ProcEntry) (e : CleanCmd.ProcErr), q.cmdline = Except.error e →
      CleanCmd.clean (q :: procs) = CleanCmd.clean procs) ∧
    CleanCmd.shouldTerminate ["python", "streamlit", "run", "app.py"] = true := by
  refine ⟨?_, ?_, by decide⟩
  · intro pid
    induction procs with
    | nil => simp [CleanCmd.clean]
    | cons p ps ih =>
      cases hc : p.cmdline with
      | ok cmd =>
        cases ht : CleanCmd.shouldTerminate cmd with
        | true =>
          rw [clean_cons_ok_true p ps cmd hc ht]
          have hiff := (shouldTerminate_iff cmd).mp ht
          constructor
          · intro hmem
            rcases List.mem_cons.mp hmem with rfl | hmem2
            · exact ⟨p, List.mem_cons_self _ _, rfl, cmd, hc, hiff.1, hiff.2⟩
            · obtain ⟨q, hq, hrest⟩ := ih.mp hmem2
              exact ⟨q, List.mem_cons_of_mem _ hq, hrest⟩
          · rintro ⟨q, hq, hpid, cmd2, hcmd2, hlen, hsub⟩
            rcases List.mem_cons.mp hq with rfl | hq2
            · exact List.mem_cons.mpr (Or.inl hpid.symm)
            · exact List.mem_cons_of_mem _ (ih.mpr ⟨q, hq2, hpid, cmd2, hcmd2, hlen, hsub⟩)
        | false =>
          rw [clean_cons_ok_false p ps cmd hc ht, ih]
          constructor
          · rintro ⟨q, hq, hrest⟩
            exact ⟨q, List.mem_cons_of_mem _ hq, hrest⟩
          · rintro ⟨q, hq, hpid, cmd2, hcmd2, hlen, hsub⟩
            rcases List.mem_cons.mp hq with rfl | hq2
            · rw [hc] at hcmd2
              cases hcmd2
              have hts := (shouldTerminate_iff cmd).mpr ⟨hlen, hsub⟩
              rw [hts] at ht
              exact Bool.noConfusion ht
            · exact ⟨q, hq2, hpid, cmd2, hcmd2, hlen, hsub⟩
      | error e =>
        rw [clean_cons_err p ps e hc, ih]
        constructor
        · rintro ⟨q, hq, hrest⟩
          exact ⟨q, List.mem_cons_of_mem _ hq, hrest⟩
        · rintro ⟨q, hq, hpid, cmd2, hcmd2, hlen, hsub⟩
          rcases List.mem_cons.mp hq with rfl | hq2
          · rw [hc] at hcmd2
            cases hcmd2
          · exact ⟨q, hq2, hpid, cmd2, hcmd2, hlen, hsub⟩
  · intro q e he
    simp [CleanCmd.clean, he]

/-- Process table used by the C9 witness: one streamlit UI process. -/
def procsW : List CleanCmd.ProcEntry :=
  [⟨17, Except.ok ["python", "streamlit", "run", "app.py"]⟩]

/-- Witness for C9: pid 17 running the example command line is signalled,
and a process that vanished mid-scan (access denied) does not change the
sweep's outcome over the rest. -/
theorem clean_signals_witness :
    17 ∈ CleanCmd.clean procsW ∧
    CleanCmd.clean (⟨5, Except.error CleanCmd.ProcErr.accessDenied⟩ :: procsW)
      = CleanCmd.clean procsW :=
  ⟨((clean_signals procsW).1 17).mpr
      ⟨⟨17, Except.ok ["python", "streamlit", "run", "app.py"]⟩, by simp [procsW], rfl,
        ["python", "streamlit", "run", "app.py"], rfl, by decide, by decide⟩,
    (clean_signals procsW).2.1 _ CleanCmd.ProcErr.accessDenied rfl⟩

/-- Claim C10: the run command treats an AGENTS_FILE equal to the literal
string None exactly like an absent agents file: the agents parser is
never consulted (the run is identical for any two agents parsers), the
agents input handed to the workflow engine stays empty, and the workflow
is still loaded and executed, returning exit code 0 when the engine
succeeds. -/
theorem run_none_literal (promptFlag : PyVal)
    (pA pA' : PyVal → Except PyErr Yaml)
    (pW : Except PyErr (List Yaml))
    (inj : List Yaml → Except PyErr (List Yaml))
    (eng : Option Yaml → List Yaml → Except PyErr Unit) :
    RunCmd.run (.str "None") promptFlag pA pW inj eng
      = RunCmd.run .none promptFlag pA' pW inj eng
    ∧ (∀ wdocs, pW = Except.ok wdocs → truthy promptFlag = false →
        eng Option.none wdocs = Except.ok () →
        RunCmd.run (.str "None") promptFlag pA pW inj eng
          = Except.ok (0, Option.none)) := by
  have hg1 : (!(pyEq (.str "None") .none) && !(pyEq (.str "None") (.str "None"))) = false := by
    decide
  have hg2 : (!(pyEq PyVal.none .none) && !(pyEq PyVal.none (.str "None"))) = false := by
    decide
  constructor
  · simp [RunCmd.run, hg1, hg2]
  · intro wdocs hw hp he
    subst hw
    simp [RunCmd.run, hg1, hp, he, Bind.bind, Except.bind, Pure.pure, Except.pure]

/-- Witness for C10: concrete instantiation where the agents parser would
fail if consulted; the run still loads and executes the workflow with no
agents input and returns 0. -/
theorem run_none_literal_witness :
    RunCmd.run (.str "None") (.bool false)
      (fun _ => Except.error (.exception "agents parse must not happen"))
      (Except.ok [Yaml.map []])
      (fun w => Except.ok w)
      (fun _ _ => Except.ok ())
      = Except.ok (0, Option.none) :=
  (run_none_literal (.bool false)
      (fun _ => Except.error (.exception "agents parse must not happen"))
      (fun _ => Except.error (.exception "agents parse must not happen"))
      (Except.ok [Yaml.map []]) (fun w => Except.ok w) (fun _ _ => Except.ok ())).2
    [Yaml.map []] rfl rfl rfl
